import Mathlib

/-!
Verification of the orchestration engine of `tradingagents/graph/trading_graph.py`
(class `TradingAgentsGraph`) against its natural-language specification.

The orchestrator is embedded shallowly: the compiled stage graph, the signal
processor and the per-role reflection critiques are external collaborators and
appear as function parameters; the orchestrator's own control flow
(`__init__` provider dispatch, `propagate`, `_log_state`,
`reflect_and_remember`, `process_signal`) is translated directly from the
source.  Components of the repository that are referenced but whose files are
not available (agent state shape, `Propagator.create_initial_state`, the
`Reflector` methods) are modelled from the specification and marked as such.
-/

/-- Errors the orchestrator can surface.  `noPriorRun` is the spec's posited
`NoPriorRunError`; the source never raises it.  `noneSubscript` models the
Python `TypeError` raised when a `None` state is subscripted, `indexError`
models `trace[-1]` on an empty list, `nameError` an undefined identifier. -/
inductive TGError where
  | missingApiKey (envVar : String)
  | unsupportedProvider (p : String)
  | nameError (ident : String)
  | noneSubscript
  | indexError
  | validationError (msg : String)
  | noPriorRun
  | graphError (msg : String)
  | reflectError (msg : String)
  deriving Repr, DecidableEq

/-- Modelled from the spec (§3): the investment-debate sub-record of the
Decision State (`InvestDebateState` in `agent_states.py`, not under `src/`):
bull/bear/combined histories, last response, judge decision, round count. -/
structure InvestDebateState where
  bull_history : String
  bear_history : String
  history : String
  current_response : String
  judge_decision : String
  count : Nat
  deriving Repr, DecidableEq

/-- Modelled from the spec (§3): the risk-debate sub-record of the Decision
State (`RiskDebateState` in `agent_states.py`, not under `src/`). -/
structure RiskDebateState where
  risky_history : String
  safe_history : String
  neutral_history : String
  history : String
  judge_decision : String
  latest_speaker : String
  count : Nat
  deriving Repr, DecidableEq

/-- Modelled from the spec (§3): the Decision State (`AgentState` in
`agent_states.py`, not under `src/`).  Messages are modelled as their content
strings; only emptiness of the message list is inspected by the orchestrator. -/
structure AgentState where
  messages : List String
  company_of_interest : String
  trade_date : String
  market_report : String
  sentiment_report : String
  news_report : String
  fundamentals_report : String
  investment_debate_state : InvestDebateState
  risk_debate_state : RiskDebateState
  trader_investment_plan : String
  investment_plan : String
  final_trade_decision : String
  deriving Repr, DecidableEq

/-- The investment-debate portion of a `_log_state` snapshot: exactly the five
keys written at lines 408-418 of `trading_graph.py`. -/
structure InvestDebateSnapshot where
  bull_history : String
  bear_history : String
  history : String
  current_response : String
  judge_decision : String
  deriving Repr, DecidableEq

/-- The risk-debate portion of a `_log_state` snapshot: exactly the five keys
written at lines 420-426 of `trading_graph.py`. -/
structure RiskDebateSnapshot where
  risky_history : String
  safe_history : String
  neutral_history : String
  history : String
  judge_decision : String
  deriving Repr, DecidableEq

/-- One value of `log_states_dict`: the snapshot dictionary built by
`_log_state` (lines 401-429).  Note `trader_investment_decision` stores the
state's `trader_investment_plan` field, as in the source. -/
structure StateSnapshot where
  company_of_interest : String
  trade_date : String
  market_report : String
  sentiment_report : String
  news_report : String
  fundamentals_report : String
  investment_debate_state : InvestDebateSnapshot
  trader_investment_decision : String
  risk_debate_state : RiskDebateSnapshot
  investment_plan : String
  final_trade_decision : String
  deriving Repr, DecidableEq

/-- A Memory Store entry (spec §3): situation description plus recommendation. -/
structure MemEntry where
  situation : String
  recommendation : String
  deriving Repr, DecidableEq

/-- A Python dict is modelled as an association list without duplicate keys:
assignment replaces the value of an existing key and otherwise appends. -/
def dictInsert (k : String) (v : StateSnapshot) : List (String × StateSnapshot) → List (String × StateSnapshot)
  | [] => [(k, v)]
  | (k', v') :: rest => if k' == k then (k, v) :: rest else (k', v') :: dictInsert k v rest

/-- Dictionary lookup for the association-list model of a Python dict. -/
def dictGet (k : String) : List (String × StateSnapshot) → Option StateSnapshot
  | [] => none
  | (k', v') :: rest => if k' == k then some v' else dictGet k rest

/-- The configuration keys of `DEFAULT_CONFIG` consumed by the provider
dispatch of `TradingAgentsGraph.__init__`.  The remaining keys
(`deep_think_llm`, `quick_think_llm`, `backend_url`, `project_dir`, ...) only
parameterize the external LLM clients and file paths and carry no control
flow, so they are not modelled. -/
structure Config where
  llm_provider : String
  deriving Repr, DecidableEq

/-- Python `str.lower()`.  `String.toLower` is extensionally the same map but
is defined by well-founded recursion on positions, which the kernel cannot
evaluate; this structural form computes. -/
def pyLower (s : String) : String := String.mk (s.data.map Char.toLower)

/-- Does the first list occur as a leading segment of the second? -/
def leadsWith : List Char → List Char → Bool
  | [], _ => true
  | _ :: _, [] => false
  | a :: as, b :: bs => a == b && leadsWith as bs

/-- Does the first list occur contiguously anywhere in the second? -/
def containsSeq (needle : List Char) : List Char → Bool
  | [] => needle.isEmpty
  | b :: bs => leadsWith needle (b :: bs) || containsSeq needle bs

/-- Python substring containment (`needle in hay`). -/
def containsSub (hay needle : String) : Bool := containsSeq needle.data hay.data

/-- Python `os.getenv` truthiness: both an unset variable and one set to the
empty string are falsy under `if not key:`. -/
def getenvTruthy (env : String → Option String) (k : String) : Option String :=
  match env k with
  | none => none
  | some v => if v == "" then none else some v

/-- The LLM client family selected by the `__init__` provider dispatch. -/
inductive ProviderChoice where
  | openaiProvider
  | siliconflowProvider
  | openrouterProvider
  | ollamaProvider
  | anthropicProvider
  | googleProvider
  | dashscopeProvider
  | deepseekProvider
  | customOpenaiProvider
  | qianfanProvider
  deriving Repr, DecidableEq

/-- The guard chain of `__init__` (lines 73-253): a provider name is supported
exactly when one of the dispatch branches accepts it.  Matching is exact for
`siliconflow`/`openrouter`/`ollama`, lowercased for the others, and
substring-based for the DashScope and DeepSeek families. -/
def supportedProvider (p : String) : Bool :=
  (pyLower p) == "openai" ||
  p == "siliconflow" ||
  p == "openrouter" ||
  p == "ollama" ||
  (pyLower p) == "anthropic" ||
  (pyLower p) == "google" ||
  ((pyLower p) == "dashscope" || (pyLower p) == "alibaba" ||
    containsSub (pyLower p) "dashscope" || containsSub p "阿里百炼") ||
  ((pyLower p) == "deepseek" || containsSub (pyLower p) "deepseek") ||
  (pyLower p) == "custom_openai" ||
  (pyLower p) == "qianfan"

/-- The LLM-provider dispatch of `TradingAgentsGraph.__init__` (lines 73-253).
Branches that construct external clients without consulting the environment
succeed outright; branches that check an API-key environment variable fail
with `ValueError` (here `missingApiKey`) when it is unset or empty.  In the
`google` branch with the key present, line 149 references `client_options`,
which no binding visible in the file defines; whether it resolves depends on
the wildcard imports (modules outside `src/`), so the branch is modelled as
succeeding.  The `qianfan` branch delegates key validation to an external
adapter and is likewise modelled as succeeding. -/
def init_llms (cfg : Config) (env : String → Option String) : Except TGError ProviderChoice :=
  let p := cfg.llm_provider
  if (pyLower p) == "openai" then
    Except.ok ProviderChoice.openaiProvider
  else if p == "siliconflow" then
    match getenvTruthy env "SILICONFLOW_API_KEY" with
    | none => Except.error (TGError.missingApiKey "SILICONFLOW_API_KEY")
    | some _ => Except.ok ProviderChoice.siliconflowProvider
  else if p == "openrouter" then
    match getenvTruthy env "OPENROUTER_API_KEY" <|> getenvTruthy env "OPENAI_API_KEY" with
    | none => Except.error (TGError.missingApiKey "OPENROUTER_API_KEY or OPENAI_API_KEY")
    | some _ => Except.ok ProviderChoice.openrouterProvider
  else if p == "ollama" then
    Except.ok ProviderChoice.ollamaProvider
  else if (pyLower p) == "anthropic" then
    Except.ok ProviderChoice.anthropicProvider
  else if (pyLower p) == "google" then
    match getenvTruthy env "GOOGLE_API_KEY" with
    | none => Except.error (TGError.missingApiKey "GOOGLE_API_KEY")
    | some _ => Except.ok ProviderChoice.googleProvider
  else if (pyLower p) == "dashscope" || (pyLower p) == "alibaba" ||
      containsSub (pyLower p) "dashscope" || containsSub p "阿里百炼" then
    Except.ok ProviderChoice.dashscopeProvider
  else if (pyLower p) == "deepseek" || containsSub (pyLower p) "deepseek" then
    match getenvTruthy env "DEEPSEEK_API_KEY" with
    | none => Except.error (TGError.missingApiKey "DEEPSEEK_API_KEY")
    | some _ => Except.ok ProviderChoice.deepseekProvider
  else if (pyLower p) == "custom_openai" then
    match getenvTruthy env "CUSTOM_OPENAI_API_KEY" with
    | none => Except.error (TGError.missingApiKey "CUSTOM_OPENAI_API_KEY")
    | some _ => Except.ok ProviderChoice.customOpenaiProvider
  else if (pyLower p) == "qianfan" then
    Except.ok ProviderChoice.qianfanProvider
  else
    Except.error (TGError.unsupportedProvider p)

/-- The mutable fields of a `TradingAgentsGraph` instance as initialized by
`__init__` and mutated by `propagate`, `_log_state` and
`reflect_and_remember`.  The five Memory Stores are modelled in their
memory-enabled configuration (fresh `FinancialSituationMemory` instances,
lines 260-266); with `memory_enabled = False` the source sets the five fields
to `None`, a configuration none of the claims exercises. -/
structure TradingAgentsGraph where
  debug : Bool
  curr_state : Option AgentState
  ticker : Option String
  log_states_dict : List (String × StateSnapshot)
  bull_memory : List MemEntry
  bear_memory : List MemEntry
  trader_memory : List MemEntry
  invest_judge_memory : List MemEntry
  risk_manager_memory : List MemEntry

/-- The state-tracking fields exactly as `__init__` leaves them (lines
299-302): no current state, no ticker, empty log, fresh stores. -/
def freshGraph (debug : Bool) : TradingAgentsGraph :=
  { debug := debug
    curr_state := none
    ticker := none
    log_states_dict := []
    bull_memory := []
    bear_memory := []
    trader_memory := []
    invest_judge_memory := []
    risk_manager_memory := [] }

/-- `TradingAgentsGraph.__init__`: the provider dispatch runs first and any
`ValueError` it raises aborts construction, so an orchestrator value — the
prerequisite of every `propagate` call — exists only for configurations the
dispatch accepts. -/
def mkTradingAgentsGraph (debug : Bool) (cfg : Config) (env : String → Option String) :
    Except TGError TradingAgentsGraph :=
  match init_llms cfg env with
  | Except.error e => Except.error e
  | Except.ok _ => Except.ok (freshGraph debug)

/-- Modelled from the spec (§4.2): `Propagator.create_initial_state`
(`propagation.py`, not under `src/`) "validates both inputs are non-empty,
zero-initializes all mutable fields, seeds `messages` with a single
system/user framing entry". -/
def create_initial_state (company_name trade_date : String) : Except TGError AgentState :=
  if company_name == "" || trade_date == "" then
    Except.error (TGError.validationError "company_name and trade_date must be non-empty")
  else
    Except.ok
      { messages := ["analyze " ++ company_name ++ " as of " ++ trade_date]
        company_of_interest := company_name
        trade_date := trade_date
        market_report := ""
        sentiment_report := ""
        news_report := ""
        fundamentals_report := ""
        investment_debate_state :=
          { bull_history := "", bear_history := "", history := ""
            current_response := "", judge_decision := "", count := 0 }
        risk_debate_state :=
          { risky_history := "", safe_history := "", neutral_history := ""
            history := "", judge_decision := "", latest_speaker := "", count := 0 }
        trader_investment_plan := ""
        investment_plan := ""
        final_trade_decision := "" }

/-- The external execution substrate and collaborators of the orchestrator:
`self.graph.invoke`, `self.graph.stream` (each streamed chunk is a full state
value, per the Propagator's graph arguments) and
`SignalProcessor.process_signal` (`signal_processing.py`, not under `src/`).
Their behaviour is a parameter; the theorems quantify over it. -/
structure ExternalBehavior where
  invoke : AgentState → Except TGError AgentState
  stream : AgentState → Except TGError (List AgentState)
  signal : String → Option String → String

/-- `TradingAgentsGraph.process_signal` (lines 459-461): delegate to the
signal processor with the full signal text and the optional stock symbol. -/
def process_signal (ext : ExternalBehavior) (full_signal : String) (stock_symbol : Option String) : String :=
  ext.signal full_signal stock_symbol

/-- The two execution modes of `propagate` (lines 375-388).  Debug mode
iterates `graph.stream`, skips every chunk whose `messages` list is empty,
collects the rest into `trace` and takes `trace[-1]` — which raises
`IndexError` when `trace` is empty.  Standard mode calls `graph.invoke`. -/
def execute_graph (ext : ExternalBehavior) (debug : Bool) (init_agent_state : AgentState) :
    Except TGError AgentState :=
  if debug then
    match ext.stream init_agent_state with
    | Except.error e => Except.error e
    | Except.ok chunks =>
      match (chunks.filter (fun chunk => !chunk.messages.isEmpty)).getLast? with
      | none => Except.error TGError.indexError
      | some final_state => Except.ok final_state
  else
    ext.invoke init_agent_state

/-- The snapshot dictionary `_log_state` builds from the final state
(lines 401-429). -/
def snapshot_of (final_state : AgentState) : StateSnapshot :=
  { company_of_interest := final_state.company_of_interest
    trade_date := final_state.trade_date
    market_report := final_state.market_report
    sentiment_report := final_state.sentiment_report
    news_report := final_state.news_report
    fundamentals_report := final_state.fundamentals_report
    investment_debate_state :=
      { bull_history := final_state.investment_debate_state.bull_history
        bear_history := final_state.investment_debate_state.bear_history
        history := final_state.investment_debate_state.history
        current_response := final_state.investment_debate_state.current_response
        judge_decision := final_state.investment_debate_state.judge_decision }
    trader_investment_decision := final_state.trader_investment_plan
    risk_debate_state :=
      { risky_history := final_state.risk_debate_state.risky_history
        safe_history := final_state.risk_debate_state.safe_history
        neutral_history := final_state.risk_debate_state.neutral_history
        history := final_state.risk_debate_state.history
        judge_decision := final_state.risk_debate_state.judge_decision }
    investment_plan := final_state.investment_plan
    final_trade_decision := final_state.final_trade_decision }

/-- `TradingAgentsGraph._log_state` (lines 399-439):
`self.log_states_dict[str(trade_date)] = snapshot`.  The subsequent dump of
the whole dictionary to `eval_results/{ticker}/.../full_states_log.json` is
external file IO and carries the same mapping. -/
def log_state (trade_date : String) (final_state : AgentState)
    (log : List (String × StateSnapshot)) : List (String × StateSnapshot) :=
  dictInsert trade_date (snapshot_of final_state) log

/-- `TradingAgentsGraph.propagate` (lines 355-397).  `self.ticker` is
assigned first (line 363); then the initial state is built and the graph
executed; only on success are `curr_state` and the log updated and the
`(final_state, processed signal)` pair returned.  A raised error leaves every
field except `ticker` untouched (Python exceptions propagate past the
remaining assignments).  The returned pair is `(resulting instance state,
result-or-error)`. -/
def propagate (ext : ExternalBehavior) (o : TradingAgentsGraph)
    (company_name trade_date : String) :
    TradingAgentsGraph × Except TGError (AgentState × String) :=
  match create_initial_state company_name trade_date with
  | Except.error e => ({ o with ticker := some company_name }, Except.error e)
  | Except.ok init_agent_state =>
    match execute_graph ext o.debug init_agent_state with
    | Except.error e => ({ o with ticker := some company_name }, Except.error e)
    | Except.ok final_state =>
      ({ o with ticker := some company_name
                curr_state := some final_state
                log_states_dict := log_state trade_date final_state o.log_states_dict },
       Except.ok (final_state,
         process_signal ext final_state.final_trade_decision (some company_name)))

/-- The five critique generators of the `Reflector` (one per role), each an
external LLM-backed computation from the final state and the realized
returns/losses to a Memory Store entry, or a failure. -/
structure ReflectorFns where
  bull : AgentState → Int → Except TGError MemEntry
  bear : AgentState → Int → Except TGError MemEntry
  trader : AgentState → Int → Except TGError MemEntry
  investJudge : AgentState → Int → Except TGError MemEntry
  riskManager : AgentState → Int → Except TGError MemEntry

/-- Modelled from the spec (§4.5): one `Reflector.reflect_<role>` call
(`reflection.py`, not under `src/`) "builds a critique input from that role's
portion of `finalState` plus the realized outcome ... and appends
`{situationKey, recommendation}` to that role's Memory Store".  The
orchestrator passes it `self.curr_state` unchecked; building the critique
from an absent (`None`) state fails with the runtime `TypeError` of
subscripting `None` — the spec defines reflection only over an existing
final state. -/
def reflect_role (critique : AgentState → Int → Except TGError MemEntry)
    (curr_state : Option AgentState) (returns_losses : Int)
    (memory : List MemEntry) : Except TGError (List MemEntry) :=
  match curr_state with
  | none => Except.error TGError.noneSubscript
  | some s =>
    match critique s returns_losses with
    | Except.error e => Except.error e
    | Except.ok entry => Except.ok (memory ++ [entry])

/-- `self.reflector.reflect_bull_researcher(self.curr_state, returns_losses,
self.bull_memory)` (lines 443-445) together with its in-place store write:
on success only `bull_memory` changes; on failure the exception propagates
with the instance unchanged. -/
def reflect_bull_researcher (r : ReflectorFns) (o : TradingAgentsGraph)
    (returns_losses : Int) : TradingAgentsGraph × Option TGError :=
  match reflect_role r.bull o.curr_state returns_losses o.bull_memory with
  | Except.error e => (o, some e)
  | Except.ok m => ({ o with bull_memory := m }, none)

/-- `self.reflector.reflect_bear_researcher(...)` (lines 446-448). -/
def reflect_bear_researcher (r : ReflectorFns) (o : TradingAgentsGraph)
    (returns_losses : Int) : TradingAgentsGraph × Option TGError :=
  match reflect_role r.bear o.curr_state returns_losses o.bear_memory with
  | Except.error e => (o, some e)
  | Except.ok m => ({ o with bear_memory := m }, none)

/-- `self.reflector.reflect_trader(...)` (lines 449-451). -/
def reflect_trader (r : ReflectorFns) (o : TradingAgentsGraph)
    (returns_losses : Int) : TradingAgentsGraph × Option TGError :=
  match reflect_role r.trader o.curr_state returns_losses o.trader_memory with
  | Except.error e => (o, some e)
  | Except.ok m => ({ o with trader_memory := m }, none)

/-- `self.reflector.reflect_invest_judge(...)` (lines 452-454). -/
def reflect_invest_judge (r : ReflectorFns) (o : TradingAgentsGraph)
    (returns_losses : Int) : TradingAgentsGraph × Option TGError :=
  match reflect_role r.investJudge o.curr_state returns_losses o.invest_judge_memory with
  | Except.error e => (o, some e)
  | Except.ok m => ({ o with invest_judge_memory := m }, none)

/-- `self.reflector.reflect_risk_manager(...)` (lines 455-457). -/
def reflect_risk_manager (r : ReflectorFns) (o : TradingAgentsGraph)
    (returns_losses : Int) : TradingAgentsGraph × Option TGError :=
  match reflect_role r.riskManager o.curr_state returns_losses o.risk_manager_memory with
  | Except.error e => (o, some e)
  | Except.ok m => ({ o with risk_manager_memory := m }, none)

/-- `TradingAgentsGraph.reflect_and_remember` (lines 441-457): the five
reflector calls run strictly in sequence with no exception handling between
them, so the first failure aborts the remaining calls; store writes already
performed persist (the stores are mutated in place). -/
def reflect_and_remember (r : ReflectorFns) (o : TradingAgentsGraph)
    (returns_losses : Int) : TradingAgentsGraph × Option TGError :=
  match reflect_bull_researcher r o returns_losses with
  | (o1, some e) => (o1, some e)
  | (o1, none) =>
    match reflect_bear_researcher r o1 returns_losses with
    | (o2, some e) => (o2, some e)
    | (o2, none) =>
      match reflect_trader r o2 returns_losses with
      | (o3, some e) => (o3, some e)
      | (o3, none) =>
        match reflect_invest_judge r o3 returns_losses with
        | (o4, some e) => (o4, some e)
        | (o4, none) =>
          match reflect_risk_manager r o4 returns_losses with
          | (o5, some e) => (o5, some e)
          | (o5, none) => (o5, none)

/-- Overwriting a key in the dictionary model makes that key map to the new
value. -/
theorem dictGet_dictInsert_self (k : String) (v : StateSnapshot)
    (l : List (String × StateSnapshot)) :
    dictGet k (dictInsert k v l) = some v := by
  induction l with
  | nil => simp [dictInsert, dictGet]
  | cons hd tl ih =>
    obtain ⟨k0, v0⟩ := hd
    simp only [dictInsert]
    by_cases hk : (k0 == k) = true
    · simp [hk, dictGet]
    · simp [hk, dictGet, ih]

/-- Overwriting one key leaves lookups of every other key unchanged. -/
theorem dictGet_dictInsert_ne (k k' : String) (v : StateSnapshot)
    (l : List (String × StateSnapshot)) (h : ¬k = k') :
    dictGet k' (dictInsert k v l) = dictGet k' l := by
  induction l with
  | nil => simp [dictInsert, dictGet, h]
  | cons hd tl ih =>
    obtain ⟨k0, v0⟩ := hd
    simp only [dictInsert]
    by_cases hk : (k0 == k) = true
    · have hk0 : k0 = k := by simpa [beq_iff_eq] using hk
      subst hk0
      simp [dictGet, h]
    · simp [dictGet, hk, ih]

/-- If the last element of a list satisfies the filter predicate, it is also
the last element of the filtered list. -/
theorem getLast_filter_of_pos {α : Type} (p : α → Bool) :
    ∀ (l : List α) (x : α), l.getLast? = some x → p x = true →
      (l.filter p).getLast? = some x
  | [], x, h, _ => by simp at h
  | [a], x, h, hx => by
    simp only [List.getLast?_singleton, Option.some.injEq] at h
    subst h
    simp [List.filter, hx]
  | a :: b :: t, x, h, hx => by
    have h' : (b :: t).getLast? = some x := by
      simpa [List.getLast?_cons_cons] using h
    have ih := getLast_filter_of_pos p (b :: t) x h' hx
    rcases hfa : p a with _ | _
    · simpa [List.filter_cons, hfa] using ih
    · rw [List.filter_cons_of_pos hfa]
      rcases hfl : (b :: t).filter p with _ | ⟨c, cs⟩
      · rw [hfl] at ih
        simp at ih
      · rw [hfl] at ih
        simpa [List.getLast?_cons_cons] using ih

/-- An investment-debate record with all mutable fields zeroed. -/
def emptyInvestDebate : InvestDebateState :=
  { bull_history := "", bear_history := "", history := ""
    current_response := "", judge_decision := "", count := 0 }

/-- A risk-debate record with all mutable fields zeroed. -/
def emptyRiskDebate : RiskDebateState :=
  { risky_history := "", safe_history := "", neutral_history := ""
    history := "", judge_decision := "", latest_speaker := "", count := 0 }

/-- A Decision State with the given transcript, instrument, date and final
decision and all other fields empty; used by the concrete scenarios. -/
def stubState (msgs : List String) (company trade_date final_decision : String) : AgentState :=
  { messages := msgs
    company_of_interest := company
    trade_date := trade_date
    market_report := ""
    sentiment_report := ""
    news_report := ""
    fundamentals_report := ""
    investment_debate_state := emptyInvestDebate
    risk_debate_state := emptyRiskDebate
    trader_investment_plan := ""
    investment_plan := ""
    final_trade_decision := final_decision }

/-- The initial state `create_initial_state` seeds for AAPL on 2024-05-01. -/
def seededAAPL : AgentState :=
  stubState ["analyze AAPL as of 2024-05-01"] "AAPL" "2024-05-01" ""

/-- A stage stub: the graph completes a run by filling in a fixed final
decision, leaving the seeded transcript in place. -/
def terminal_stub (s : AgentState) : AgentState :=
  { s with final_trade_decision := "FINAL TRANSACTION PROPOSAL: HOLD" }

/-- A deterministic external substrate: batch and streaming agree, the single
streamed chunk is the terminal state and keeps its transcript, and the signal
processor echoes the decision text. -/
def extOk : ExternalBehavior :=
  { invoke := fun s => Except.ok (terminal_stub s)
    stream := fun s => Except.ok [terminal_stub s]
    signal := fun t _ => t }

/-- An external substrate whose graph execution always raises. -/
def extFail : ExternalBehavior :=
  { invoke := fun _ => Except.error (TGError.graphError "upstream failure")
    stream := fun _ => Except.error (TGError.graphError "upstream failure")
    signal := fun t _ => t }

/-- An intermediate chunk that carries a message. -/
def chunkKept : AgentState := stubState ["intermediate"] "AAPL" "2024-05-01" ""

/-- A terminal chunk whose messages list is empty. -/
def chunkDropped : AgentState :=
  stubState [] "AAPL" "2024-05-01" "FINAL TRANSACTION PROPOSAL: HOLD"

/-- A coherent substrate (the last streamed chunk is exactly the batch
result) whose terminal chunk has an empty messages list. -/
def extMismatch : ExternalBehavior :=
  { invoke := fun _ => Except.ok chunkDropped
    stream := fun _ => Except.ok [chunkKept, chunkDropped]
    signal := fun t _ => t }

/-- A substrate every one of whose streamed chunks has an empty messages
list. -/
def extAllEmpty : ExternalBehavior :=
  { invoke := fun _ => Except.ok chunkDropped
    stream := fun _ => Except.ok [chunkDropped]
    signal := fun t _ => t }

/-- Reflector critiques that always succeed. -/
def reflOk : ReflectorFns :=
  { bull := fun _ _ => Except.ok ⟨"sit-bull", "rec-bull"⟩
    bear := fun _ _ => Except.ok ⟨"sit-bear", "rec-bear"⟩
    trader := fun _ _ => Except.ok ⟨"sit-trader", "rec-trader"⟩
    investJudge := fun _ _ => Except.ok ⟨"sit-ij", "rec-ij"⟩
    riskManager := fun _ _ => Except.ok ⟨"sit-rm", "rec-rm"⟩ }

/-- Reflector critiques where only the bull critique fails. -/
def reflBullFails : ReflectorFns :=
  { reflOk with bull := fun _ _ => Except.error (TGError.reflectError "bull llm") }

/-- Reflector critiques where only the trader critique fails. -/
def reflTraderFails : ReflectorFns :=
  { reflOk with trader := fun _ _ => Except.error (TGError.reflectError "trader llm") }

/-- An orchestrator that has one completed run stored as current. -/
def oAfterRun : TradingAgentsGraph :=
  { freshGraph false with curr_state := some (stubState ["m"] "AAPL" "2024-05-01" "HOLD") }

/-- C2: every run of `propagate` whose graph execution reaches a terminal
state stores that terminal state as the orchestrator's current state and
returns it paired with the Signal Extractor applied to the state's
`final_trade_decision` and the instrument. -/
theorem c2_propagate_stores_and_returns (ext : ExternalBehavior)
    (o : TradingAgentsGraph) (company_name trade_date : String)
    (s0 fs : AgentState)
    (hinit : create_initial_state company_name trade_date = Except.ok s0)
    (hexec : execute_graph ext o.debug s0 = Except.ok fs) :
    (propagate ext o company_name trade_date).1.curr_state = some fs ∧
    (propagate ext o company_name trade_date).2 =
      Except.ok (fs, process_signal ext fs.final_trade_decision (some company_name)) := by
  simp [propagate, hinit, hexec]

/-- C2 witness: a concrete successful batch run on AAPL. -/
theorem c2_witness :
    (propagate extOk (freshGraph false) "AAPL" "2024-05-01").1.curr_state =
      some (terminal_stub seededAAPL) ∧
    (propagate extOk (freshGraph false) "AAPL" "2024-05-01").2 =
      Except.ok (terminal_stub seededAAPL,
        process_signal extOk (terminal_stub seededAAPL).final_trade_decision (some "AAPL")) :=
  c2_propagate_stores_and_returns extOk (freshGraph false) "AAPL" "2024-05-01"
    seededAAPL (terminal_stub seededAAPL) rfl rfl

/-- C4: when the graph execution raises before reaching a terminal state,
`propagate` surfaces that error and both the stored current state and the run
log are exactly what they were before the call — no partial terminal state is
exposed. -/
theorem c4_failed_run_preserves_current_state (ext : ExternalBehavior)
    (o : TradingAgentsGraph) (company_name trade_date : String)
    (s0 : AgentState) (e : TGError)
    (hinit : create_initial_state company_name trade_date = Except.ok s0)
    (hexec : execute_graph ext o.debug s0 = Except.error e) :
    (propagate ext o company_name trade_date).2 = Except.error e ∧
    (propagate ext o company_name trade_date).1.curr_state = o.curr_state ∧
    (propagate ext o company_name trade_date).1.log_states_dict = o.log_states_dict := by
  simp [propagate, hinit, hexec]

/-- C4 witness: a failing run on TSLA leaves the AAPL run stored as current. -/
theorem c4_witness :
    (propagate extFail oAfterRun "TSLA" "2024-06-01").2 =
      Except.error (TGError.graphError "upstream failure") ∧
    (propagate extFail oAfterRun "TSLA" "2024-06-01").1.curr_state = oAfterRun.curr_state ∧
    (propagate extFail oAfterRun "TSLA" "2024-06-01").1.log_states_dict =
      oAfterRun.log_states_dict :=
  c4_failed_run_preserves_current_state extFail oAfterRun "TSLA" "2024-06-01"
    (stubState ["analyze TSLA as of 2024-06-01"] "TSLA" "2024-06-01" "")
    (TGError.graphError "upstream failure") rfl rfl

/-- C10: `propagate` assigns `self.ticker` before executing the graph, so a
failed run leaves the new instrument stored in `ticker` while `curr_state`
still holds the previous run's terminal state. -/
theorem c10_ticker_assigned_before_execution (ext : ExternalBehavior)
    (o : TradingAgentsGraph) (company_name trade_date : String)
    (s0 : AgentState) (e : TGError)
    (hinit : create_initial_state company_name trade_date = Except.ok s0)
    (hexec : execute_graph ext o.debug s0 = Except.error e) :
    (propagate ext o company_name trade_date).1.ticker = some company_name ∧
    (propagate ext o company_name trade_date).1.curr_state = o.curr_state := by
  simp [propagate, hinit, hexec]

/-- C10 witness: after a failed TSLA run the ticker reads TSLA while the
current state is still the earlier AAPL terminal state. -/
theorem c10_witness :
    (propagate extFail oAfterRun "TSLA" "2024-06-01").1.ticker = some "TSLA" ∧
    (propagate extFail oAfterRun "TSLA" "2024-06-01").1.curr_state = oAfterRun.curr_state :=
  c10_ticker_assigned_before_execution extFail oAfterRun "TSLA" "2024-06-01"
    (stubState ["analyze TSLA as of 2024-06-01"] "TSLA" "2024-06-01" "")
    (TGError.graphError "upstream failure") rfl rfl

/-- C9: in debug mode, chunks with an empty messages list are discarded from
the trace; the run result is the last retained chunk, and when every chunk is
discarded the access `trace[-1]` fails with an index error instead of
returning a terminal state. -/
theorem c9_debug_chunk_filtering (ext : ExternalBehavior)
    (o : TradingAgentsGraph) (company_name trade_date : String)
    (s0 : AgentState) (chunks : List AgentState)
    (hdbg : o.debug = true)
    (hinit : create_initial_state company_name trade_date = Except.ok s0)
    (hs : ext.stream s0 = Except.ok chunks) :
    (chunks.filter (fun chunk => !chunk.messages.isEmpty) = [] →
      (propagate ext o company_name trade_date).2 = Except.error TGError.indexError) ∧
    (∀ fs, (chunks.filter (fun chunk => !chunk.messages.isEmpty)).getLast? = some fs →
      (propagate ext o company_name trade_date).2 =
        Except.ok (fs, process_signal ext fs.final_trade_decision (some company_name))) := by
  constructor
  · intro hemp
    simp [propagate, hinit, execute_graph, hdbg, hs, hemp]
  · intro fs hl
    simp [propagate, hinit, execute_graph, hdbg, hs, hl]

/-- C9 witness: with only empty-message chunks the debug run fails with the
index error; with a retained chunk the run returns that chunk. -/
theorem c9_witness :
    (propagate extAllEmpty (freshGraph true) "AAPL" "2024-05-01").2 =
      Except.error TGError.indexError ∧
    (propagate extOk (freshGraph true) "AAPL" "2024-05-01").2 =
      Except.ok (terminal_stub seededAAPL,
        process_signal extOk (terminal_stub seededAAPL).final_trade_decision (some "AAPL")) :=
  ⟨(c9_debug_chunk_filtering extAllEmpty (freshGraph true) "AAPL" "2024-05-01"
      seededAAPL [chunkDropped] rfl rfl rfl).1 rfl,
   (c9_debug_chunk_filtering extOk (freshGraph true) "AAPL" "2024-05-01"
      seededAAPL [terminal_stub seededAAPL] rfl rfl rfl).2 (terminal_stub seededAAPL) rfl⟩

/-- C1 counterexample: calling `reflect_and_remember` on a freshly
constructed orchestrator (no completed run) does fail, but with the runtime
error of subscripting the absent (`None`) current state, not with the
`NoPriorRunError` the claim names — the method performs no prior-run check. -/
theorem c1_counterexample :
    (reflect_and_remember reflOk (freshGraph false) 5).2 ≠ some TGError.noPriorRun ∧
    (reflect_and_remember reflOk (freshGraph false) 5).2 = some TGError.noneSubscript := by
  exact ⟨by decide, rfl⟩

/-- C1 (amended): called before any run has completed,
`reflect_and_remember` passes the absent current state unchecked to the first
reflector call, which fails with the runtime None-subscript error rather than
a dedicated `NoPriorRunError`; the orchestrator — in particular every one of
the five Memory Stores — is left unchanged, so no store receives an appended
entry. -/
theorem c1_amended_reflect_before_any_run (r : ReflectorFns)
    (o : TradingAgentsGraph) (returns_losses : Int)
    (h : o.curr_state = none) :
    reflect_and_remember r o returns_losses = (o, some TGError.noneSubscript) := by
  simp [reflect_and_remember, reflect_bull_researcher, reflect_role, h]

/-- C1 witness: the amended behaviour on a freshly constructed orchestrator. -/
theorem c1_witness :
    reflect_and_remember reflOk (freshGraph false) 5 =
      (freshGraph false, some TGError.noneSubscript) :=
  c1_amended_reflect_before_any_run reflOk (freshGraph false) 5 rfl

/-- C5: each of the five reflection steps is passed its own role's store and
mutates only that store: for every role not being reflected at a given step,
that role's store contents (hence size) are unchanged by that step, whatever
the critique functions and current state are. -/
theorem c5_reflection_store_isolation (r : ReflectorFns)
    (o : TradingAgentsGraph) (returns_losses : Int) :
    ((reflect_bull_researcher r o returns_losses).1.bear_memory = o.bear_memory ∧
     (reflect_bull_researcher r o returns_losses).1.trader_memory = o.trader_memory ∧
     (reflect_bull_researcher r o returns_losses).1.invest_judge_memory = o.invest_judge_memory ∧
     (reflect_bull_researcher r o returns_losses).1.risk_manager_memory = o.risk_manager_memory) ∧
    ((reflect_bear_researcher r o returns_losses).1.bull_memory = o.bull_memory ∧
     (reflect_bear_researcher r o returns_losses).1.trader_memory = o.trader_memory ∧
     (reflect_bear_researcher r o returns_losses).1.invest_judge_memory = o.invest_judge_memory ∧
     (reflect_bear_researcher r o returns_losses).1.risk_manager_memory = o.risk_manager_memory) ∧
    ((reflect_trader r o returns_losses).1.bull_memory = o.bull_memory ∧
     (reflect_trader r o returns_losses).1.bear_memory = o.bear_memory ∧
     (reflect_trader r o returns_losses).1.invest_judge_memory = o.invest_judge_memory ∧
     (reflect_trader r o returns_losses).1.risk_manager_memory = o.risk_manager_memory) ∧
    ((reflect_invest_judge r o returns_losses).1.bull_memory = o.bull_memory ∧
     (reflect_invest_judge r o returns_losses).1.bear_memory = o.bear_memory ∧
     (reflect_invest_judge r o returns_losses).1.trader_memory = o.trader_memory ∧
     (reflect_invest_judge r o returns_losses).1.risk_manager_memory = o.risk_manager_memory) ∧
    ((reflect_risk_manager r o returns_losses).1.bull_memory = o.bull_memory ∧
     (reflect_risk_manager r o returns_losses).1.bear_memory = o.bear_memory ∧
     (reflect_risk_manager r o returns_losses).1.trader_memory = o.trader_memory ∧
     (reflect_risk_manager r o returns_losses).1.invest_judge_memory = o.invest_judge_memory) := by
  refine ⟨⟨?_, ?_, ?_, ?_⟩, ⟨?_, ?_, ?_, ?_⟩, ⟨?_, ?_, ?_, ?_⟩,
    ⟨?_, ?_, ?_, ?_⟩, ⟨?_, ?_, ?_, ?_⟩⟩ <;>
  first
    | (unfold reflect_bull_researcher; split <;> rfl)
    | (unfold reflect_bear_researcher; split <;> rfl)
    | (unfold reflect_trader; split <;> rfl)
    | (unfold reflect_invest_judge; split <;> rfl)
    | (unfold reflect_risk_manager; split <;> rfl)

/-- C6 counterexample: when only the bull critique fails, the bear and
trader critiques succeed on every input yet their stores receive no appended
entry — the failure of one role does block the reflection of the others. -/
theorem c6_counterexample :
    (reflect_and_remember reflBullFails oAfterRun 5).2 =
      some (TGError.reflectError "bull llm") ∧
    (reflect_and_remember reflBullFails oAfterRun 5).1.bear_memory = [] ∧
    (reflect_and_remember reflBullFails oAfterRun 5).1.trader_memory = [] ∧
    (reflect_and_remember reflBullFails oAfterRun 5).1.invest_judge_memory = [] ∧
    (reflect_and_remember reflBullFails oAfterRun 5).1.risk_manager_memory = [] := by
  exact ⟨rfl, rfl, rfl, rfl, rfl⟩

/-- C6 (amended): the five reflections run strictly in sequence with no
per-role isolation: when the trader critique fails, the bull and bear stores
(reflected earlier) keep their appended entries, the error propagates out of
`reflect_and_remember`, and the invest-judge and risk-manager stores are
never reflected. -/
theorem c6_amended_failure_aborts_remaining_roles (r : ReflectorFns)
    (o : TradingAgentsGraph) (s : AgentState) (returns_losses : Int)
    (eb ebe : MemEntry) (err : TGError)
    (hcs : o.curr_state = some s)
    (hb : r.bull s returns_losses = Except.ok eb)
    (hbe : r.bear s returns_losses = Except.ok ebe)
    (ht : r.trader s returns_losses = Except.error err) :
    reflect_and_remember r o returns_losses =
      ({ o with bull_memory := o.bull_memory ++ [eb]
                bear_memory := o.bear_memory ++ [ebe] }, some err) := by
  simp [reflect_and_remember, reflect_bull_researcher, reflect_bear_researcher,
    reflect_trader, reflect_role, hcs, hb, hbe, ht]

/-- C6 witness: a trader-critique failure after a completed run keeps the
bull and bear entries and surfaces the error. -/
theorem c6_witness :
    reflect_and_remember reflTraderFails oAfterRun 5 =
      ({ oAfterRun with bull_memory := [⟨"sit-bull", "rec-bull"⟩]
                        bear_memory := [⟨"sit-bear", "rec-bear"⟩] },
       some (TGError.reflectError "trader llm")) :=
  c6_amended_failure_aborts_remaining_roles reflTraderFails oAfterRun
    (stubState ["m"] "AAPL" "2024-05-01" "HOLD") 5
    ⟨"sit-bull", "rec-bull"⟩ ⟨"sit-bear", "rec-bear"⟩
    (TGError.reflectError "trader llm") rfl rfl rfl rfl

/-- C3 counterexample: a coherent substrate — the last streamed chunk is
exactly the batch result — whose terminal chunk carries an empty messages
list: debug mode discards that chunk and returns the preceding one, so the
two execution modes produce different terminal states for identical inputs
and identical stage behaviour. -/
theorem c3_counterexample :
    extMismatch.invoke seededAAPL = Except.ok chunkDropped ∧
    (extMismatch.stream seededAAPL = Except.ok [chunkKept, chunkDropped] ∧
      [chunkKept, chunkDropped].getLast? = some chunkDropped) ∧
    (propagate extMismatch (freshGraph false) "AAPL" "2024-05-01").1.curr_state =
      some chunkDropped ∧
    (propagate extMismatch (freshGraph true) "AAPL" "2024-05-01").1.curr_state =
      some chunkKept ∧
    chunkKept ≠ chunkDropped := by
  exact ⟨rfl, ⟨rfl, rfl⟩, rfl, rfl, by decide⟩

/-- C3 (amended): streaming and batch mode produce the identical terminal
state for identical inputs and identical stage behaviour (the last streamed
chunk being the batch terminal state) provided that terminal chunk has a
non-empty messages list — otherwise debug mode discards it. -/
theorem c3_amended_modes_agree (ext : ExternalBehavior) (s0 : AgentState)
    (chunks : List AgentState) (fs : AgentState)
    (hs : ext.stream s0 = Except.ok chunks)
    (hlast : chunks.getLast? = some fs)
    (hinv : ext.invoke s0 = Except.ok fs)
    (hmsg : fs.messages ≠ []) :
    execute_graph ext true s0 = execute_graph ext false s0 := by
  have hp : (!fs.messages.isEmpty) = true := by
    rcases hm : fs.messages with _ | ⟨a, as⟩
    · exact absurd hm hmsg
    · simp
  have hf := getLast_filter_of_pos (fun chunk => !chunk.messages.isEmpty) chunks fs hlast hp
  simp [execute_graph, hs, hinv, hf]

/-- C3 witness: the two modes agree on a substrate whose terminal chunk
keeps its transcript. -/
theorem c3_witness :
    execute_graph extOk true seededAAPL = execute_graph extOk false seededAAPL :=
  c3_amended_modes_agree extOk seededAAPL [terminal_stub seededAAPL]
    (terminal_stub seededAAPL) rfl rfl rfl (by decide)

/-- C7 counterexample: `log_states_dict` is one mapping keyed by date alone,
shared across instruments.  After a run for AAPL on 2024-05-01 the log holds
the AAPL snapshot under that date; a later run for TSLA on the same date
overwrites it, so an entry written by an earlier run of one instrument is not
still present unmodified after a later run — the log is neither keyed per
instrument nor append-only. -/
theorem c7_counterexample :
    dictGet "2024-05-01"
        (propagate extOk (freshGraph false) "AAPL" "2024-05-01").1.log_states_dict =
      some (snapshot_of (terminal_stub seededAAPL)) ∧
    dictGet "2024-05-01"
        (propagate extOk
          (propagate extOk (freshGraph false) "AAPL" "2024-05-01").1
          "TSLA" "2024-05-01").1.log_states_dict ≠
      some (snapshot_of (terminal_stub seededAAPL)) := by
  exact ⟨rfl, by decide⟩

/-- C7 (amended): the run log is a single per-orchestrator mapping keyed by
asOfDate alone (each snapshot records its own instrument); any later call to
`propagate` — for any instrument, successful or failed — leaves the entry
stored under every other date unchanged, while a run with the same asOfDate
replaces that date's entry. -/
theorem c7_amended_log_keyed_by_date (ext : ExternalBehavior)
    (o : TradingAgentsGraph) (company_name trade_date d : String)
    (h : ¬trade_date = d) :
    dictGet d (propagate ext o company_name trade_date).1.log_states_dict =
      dictGet d o.log_states_dict := by
  rcases hinit : create_initial_state company_name trade_date with e | s0
  · simp [propagate, hinit]
  · rcases hexec : execute_graph ext o.debug s0 with e | fs
    · simp [propagate, hinit, hexec]
    · simp [propagate, hinit, hexec, log_state, dictGet_dictInsert_ne trade_date d _ _ h]

/-- C7 witness: a later TSLA run on a different date leaves the AAPL entry
unchanged. -/
theorem c7_witness :
    dictGet "2024-05-01"
        (propagate extOk
          (propagate extOk (freshGraph false) "AAPL" "2024-05-01").1
          "TSLA" "2024-06-01").1.log_states_dict =
      dictGet "2024-05-01"
        (propagate extOk (freshGraph false) "AAPL" "2024-05-01").1.log_states_dict :=
  c7_amended_log_keyed_by_date extOk
    (propagate extOk (freshGraph false) "AAPL" "2024-05-01").1
    "TSLA" "2024-06-01" "2024-05-01" (by decide)

/-- C8: an LLM provider name outside the supported set makes construction
fail with the unsupported-provider error, and each provider whose required
API-key environment variable the constructor checks fails with the
missing-key error when that variable is unset or empty; construction is the
only way to obtain an orchestrator value, so no run executes under such a
configuration. -/
theorem c8_invalid_configuration_is_fatal (debug : Bool) (cfg : Config)
    (env : String → Option String) :
    (supportedProvider cfg.llm_provider = false →
      mkTradingAgentsGraph debug cfg env =
        Except.error (TGError.unsupportedProvider cfg.llm_provider)) ∧
    (cfg.llm_provider = "siliconflow" →
      getenvTruthy env "SILICONFLOW_API_KEY" = none →
      mkTradingAgentsGraph debug cfg env =
        Except.error (TGError.missingApiKey "SILICONFLOW_API_KEY")) ∧
    (cfg.llm_provider = "openrouter" →
      getenvTruthy env "OPENROUTER_API_KEY" = none →
      getenvTruthy env "OPENAI_API_KEY" = none →
      mkTradingAgentsGraph debug cfg env =
        Except.error (TGError.missingApiKey "OPENROUTER_API_KEY or OPENAI_API_KEY")) ∧
    (cfg.llm_provider = "google" →
      getenvTruthy env "GOOGLE_API_KEY" = none →
      mkTradingAgentsGraph debug cfg env =
        Except.error (TGError.missingApiKey "GOOGLE_API_KEY")) ∧
    (cfg.llm_provider = "deepseek" →
      getenvTruthy env "DEEPSEEK_API_KEY" = none →
      mkTradingAgentsGraph debug cfg env =
        Except.error (TGError.missingApiKey "DEEPSEEK_API_KEY")) ∧
    (cfg.llm_provider = "custom_openai" →
      getenvTruthy env "CUSTOM_OPENAI_API_KEY" = none →
      mkTradingAgentsGraph debug cfg env =
        Except.error (TGError.missingApiKey "CUSTOM_OPENAI_API_KEY")) := by
  obtain ⟨p⟩ := cfg
  refine ⟨?_, ?_, ?_, ?_, ?_, ?_⟩
  · intro h
    simp only [supportedProvider, Bool.or_eq_false_iff] at h
    obtain ⟨⟨⟨⟨⟨⟨⟨⟨⟨h1, h2⟩, h3⟩, h4⟩, h5⟩, h6⟩, h7⟩, h8⟩, h9⟩, h10⟩ := h
    simp only [init_llms, mkTradingAgentsGraph]
    simp [h1, h2, h3, h4, h5, h6, h7, h8, h9, h10]
  · intro hp hk
    simp only at hp
    subst hp
    simp only [mkTradingAgentsGraph, init_llms]
    rw [hk]
    rfl
  · intro hp hk1 hk2
    simp only at hp
    subst hp
    simp only [mkTradingAgentsGraph, init_llms]
    rw [hk1, hk2]
    rfl
  · intro hp hk
    simp only at hp
    subst hp
    simp only [mkTradingAgentsGraph, init_llms]
    rw [hk]
    rfl
  · intro hp hk
    simp only at hp
    subst hp
    simp only [mkTradingAgentsGraph, init_llms]
    rw [hk]
    rfl
  · intro hp hk
    simp only at hp
    subst hp
    simp only [mkTradingAgentsGraph, init_llms]
    rw [hk]
    rfl

/-- C8 witness: an unknown provider and a keyless SiliconFlow configuration
both fail fatally at construction. -/
theorem c8_witness :
    mkTradingAgentsGraph false ⟨"no-such-provider"⟩ (fun _ => none) =
      Except.error (TGError.unsupportedProvider "no-such-provider") ∧
    mkTradingAgentsGraph false ⟨"siliconflow"⟩ (fun _ => none) =
      Except.error (TGError.missingApiKey "SILICONFLOW_API_KEY") :=
  ⟨(c8_invalid_configuration_is_fatal false ⟨"no-such-provider"⟩ (fun _ => none)).1 rfl,
   (c8_invalid_configuration_is_fatal false ⟨"siliconflow"⟩ (fun _ => none)).2.1 rfl rfl⟩
